import Mathlib

/-
  Verification of the documentation-grouping header src/docs/website_docs.h.

  The repository file is a Doxygen documentation header: three comment
  blocks declaring the documentation groups frontend, components and
  utilities.  We embed the file verbatim as its list of text lines,
  extract the group declarations from those lines, and model the
  taxonomy a documentation build constructs from them.
-/

/-- The text lines of src/docs/website_docs.h, verbatim.  The file contains
16 newline characters; its final line has no trailing newline, so it
consists of 17 lines of text. -/
def websiteDocsLines : List String :=
  [ "/**"
  , "@defgroup frontend Frontend Application"
  , "@brief React-based user interface components"
  , "@details The frontend provides visualization and interaction with the analysis system."
  , "*/"
  , ""
  , "/**"
  , "@defgroup components UI Components"
  , "@ingroup frontend"
  , "@brief Reusable React components"
  , "*/"
  , ""
  , "/**"
  , "@defgroup utilities Utilities"
  , "@ingroup frontend"
  , "@brief Shared utility functions and hooks"
  , "*/" ]

/-- A documentation-group declaration: an identifier, a human-readable
title, an optional parent-group reference, and the free-text
descriptions attached to it (every brief line and every details line
of the declaring comment block is recorded, so that their multiplicity
can be stated). -/
structure GroupDecl where
  ident : String
  title : String
  parent : Option String
  briefs : List String
  detailsTexts : List String
deriving DecidableEq

/-- Splits a list of characters into the space-separated words it spells. -/
def splitWordsAux : List Char → List Char → List (List Char)
  | [], acc => [acc.reverse]
  | c :: cs, acc =>
      if c = ' ' then acc.reverse :: splitWordsAux cs []
      else splitWordsAux cs (c :: acc)

/-- The space-separated words of a line. -/
def lineWords (s : String) : List String :=
  (splitWordsAux s.toList []).map String.mk

/-- Rejoins words with single spaces. -/
def joinWords : List String → String
  | [] => ""
  | [w] => w
  | w :: ws => w ++ " " ++ joinWords ws

/-- Modelled from the spec: the documentation generator that consumes the
annotation syntax is not part of the repository; this reading of one line
follows section 6 of the spec ("Group declaration: an identifier, a
human-readable title, an optional parent-group reference (ingroup), and a
free-text description (brief/details)").  A defgroup line opens a new
declaration, flushing the previous one; ingroup, brief and details lines
annotate the declaration currently open; every other line is ignored. -/
def parseStep (acc : List GroupDecl × Option GroupDecl) (line : String) :
    List GroupDecl × Option GroupDecl :=
  match lineWords line with
  | "@defgroup" :: id :: titleWords =>
      (acc.1 ++ acc.2.toList,
       some { ident := id, title := joinWords titleWords,
              parent := none, briefs := [], detailsTexts := [] })
  | "@ingroup" :: p :: _ =>
      (acc.1, acc.2.map fun d => { d with parent := some p })
  | "@brief" :: ws =>
      (acc.1, acc.2.map fun d => { d with briefs := d.briefs ++ [joinWords ws] })
  | "@details" :: ws =>
      (acc.1, acc.2.map fun d => { d with detailsTexts := d.detailsTexts ++ [joinWords ws] })
  | _ => acc

/-- Modelled from the spec: extraction of all group declarations from the
lines of a header, by the line reading of parseStep. -/
def parseGroups (lines : List String) : List GroupDecl :=
  let r := lines.foldl parseStep ([], none)
  r.1 ++ r.2.toList

/-- The group declarations of src/docs/website_docs.h. -/
def websiteGroups : List GroupDecl := parseGroups websiteDocsLines

/-- The first declaration of the header (lines 1-5). -/
def frontendDecl : GroupDecl :=
  { ident := "frontend"
    title := "Frontend Application"
    parent := none
    briefs := ["React-based user interface components"]
    detailsTexts :=
      ["The frontend provides visualization and interaction with the analysis system."] }

/-- The second declaration of the header (lines 7-11). -/
def componentsDecl : GroupDecl :=
  { ident := "components"
    title := "UI Components"
    parent := some "frontend"
    briefs := ["Reusable React components"]
    detailsTexts := [] }

/-- The third declaration of the header (lines 13-17). -/
def utilitiesDecl : GroupDecl :=
  { ident := "utilities"
    title := "Utilities"
    parent := some "frontend"
    briefs := ["Shared utility functions and hooks"]
    detailsTexts := [] }

/-- Parsing the header yields exactly its three declarations, in order. -/
theorem websiteGroups_eq :
    websiteGroups = [frontendDecl, componentsDecl, utilitiesDecl] := by decide

/-- Modelled from the spec: the taxonomy a documentation build constructs
(sections 2 and 8 of the spec), since the documentation generator itself is
not part of the repository.  A taxonomy is a set of group nodes, a
parent/child edge set (parent first), and the set of (group, brief) pairs
displayed for the groups. -/
structure Taxonomy where
  nodes : Finset String
  edges : Finset (String × String)
  briefs : Finset (String × String)
deriving DecidableEq

/-- Modelled from the spec: how one declaration extends the taxonomy.
Declarations are merged by identifier - a group already present is not
added again, so re-processing introduces no duplicate nodes (spec section
8, property 5). -/
def addDecl (t : Taxonomy) (d : GroupDecl) : Taxonomy :=
  if d.ident ∈ t.nodes then t
  else
    { nodes := insert d.ident t.nodes
      edges := d.parent.elim t.edges fun p => insert (p, d.ident) t.edges
      briefs := t.briefs ∪ (d.briefs.map fun b => (d.ident, b)).toFinset }

/-- Modelled from the spec: the taxonomy built from a list of group
declarations, starting from the empty taxonomy. -/
def buildTaxonomy (decls : List GroupDecl) : Taxonomy :=
  decls.foldl addDecl ⟨∅, ∅, ∅⟩

/-- A root of the taxonomy: a node that is no edge's child. -/
def Taxonomy.roots (t : Taxonomy) : Finset String :=
  t.nodes.filter fun n => ∀ e ∈ t.edges, e.2 ≠ n

/-- A leaf of the taxonomy: a node that is no edge's parent. -/
def Taxonomy.leaves (t : Taxonomy) : Finset String :=
  t.nodes.filter fun n => ∀ e ∈ t.edges, e.1 ≠ n

/-- The taxonomy built from the declarations of src/docs/website_docs.h. -/
def websiteTaxonomy : Taxonomy := buildTaxonomy websiteGroups

/-- The parent/child pairs declared by a list of group declarations:
one (parent, child) pair for each declaration carrying a parent
reference. -/
def declEdges (decls : List GroupDecl) : List (String × String) :=
  decls.filterMap fun d => d.parent.map fun p => (p, d.ident)

/-- Scans the lines of a file, tracking whether a documentation comment
block is open: every line must be a comment opener, a comment closer,
a line inside an open comment, or a blank line, and the file must end
with no comment left open. -/
def docScan : Bool → List String → Bool
  | inComment, [] => !inComment
  | inComment, l :: ls =>
      if l = "/**" then (if inComment then false else docScan true ls)
      else if l = "*/" then (if inComment then docScan false ls else false)
      else if inComment then docScan true ls
      else if l = "" then docScan false ls
      else false

/-- A file is pure documentation: every line is blank or belongs to a
documentation comment block, so nothing is declared outside comments. -/
def pureDocComments (lines : List String) : Bool := docScan false lines

/-- Declarations whose identifiers differ extend the taxonomy in either
order with the same result. -/
theorem addDecl_comm (d1 d2 : GroupDecl) (h : d1.ident ≠ d2.ident) (t : Taxonomy) :
    addDecl (addDecl t d1) d2 = addDecl (addDecl t d2) d1 := by
  by_cases h1 : d1.ident ∈ t.nodes <;> by_cases h2 : d2.ident ∈ t.nodes
  · simp [addDecl, h1, h2]
  · simp [addDecl, h1, h2, Finset.mem_insert]
  · simp [addDecl, h1, h2, Finset.mem_insert]
  · cases hp1 : d1.parent <;> cases hp2 : d2.parent <;>
      simp [addDecl, h1, h2, hp1, hp2, Finset.mem_insert, h, Ne.symm h,
        Finset.Insert.comm, Finset.union_right_comm] <;>
      exact congrArg (fun s => t.briefs ∪ s) (Finset.union_comm _ _)

/-- Claim C1: building documentation from the three declarations of the
header produces a tree with exactly one root node, frontend, and exactly
two leaf nodes, components and utilities, and each leaf displays its
declared brief description string verbatim. -/
theorem frontend_build_tree :
    websiteTaxonomy.roots = {"frontend"}
    ∧ websiteTaxonomy.leaves = {"components", "utilities"}
    ∧ websiteTaxonomy.briefs.filter (fun p => p.1 = "components") =
        {("components", "Reusable React components")}
    ∧ websiteTaxonomy.briefs.filter (fun p => p.1 = "utilities") =
        {("utilities", "Shared utility functions and hooks")} := by decide

/-- Claim C2: no two of the declared groups share an identifier. -/
theorem group_idents_unique : (websiteGroups.map GroupDecl.ident).Nodup := by decide

/-- Claim C3: every group declared with a parent reference references a
group that is itself declared in the header. -/
theorem ingroup_refs_declared :
    ∀ d ∈ websiteGroups, ∀ p, d.parent = some p →
      p ∈ websiteGroups.map GroupDecl.ident := by
  intro d hd p hp
  rw [websiteGroups_eq] at hd
  simp only [List.mem_cons, List.not_mem_nil, or_false] at hd
  rcases hd with rfl | rfl | rfl
  · simp [frontendDecl] at hp
  · simp only [componentsDecl] at hp
    injection hp with h
    subst h
    decide
  · simp only [utilitiesDecl] at hp
    injection hp with h
    subst h
    decide

/-- Witness for C3 at the components declaration. -/
theorem ingroup_refs_declared_witness :
    "frontend" ∈ websiteGroups.map GroupDecl.ident :=
  ingroup_refs_declared componentsDecl (by decide) "frontend" (by decide)

/-- Claim C4: every declared group carries exactly one brief string. -/
theorem each_group_one_brief : ∀ d ∈ websiteGroups, d.briefs.length = 1 := by decide

/-- Witness for C4 at the frontend declaration. -/
theorem each_group_one_brief_witness : frontendDecl.briefs.length = 1 :=
  each_group_one_brief frontendDecl (by decide)

/-- Claim C5: building the taxonomy from any permutation of the
declaration order yields the same parent/child tree. -/
theorem taxonomy_perm_invariant (l : List GroupDecl) (h : l.Perm websiteGroups) :
    buildTaxonomy l = websiteTaxonomy := by
  have comm : ∀ x ∈ l, ∀ y ∈ l, ∀ z : Taxonomy,
      addDecl (addDecl z x) y = addDecl (addDecl z y) x := by
    intro x hx y hy z
    have hx' : x ∈ [frontendDecl, componentsDecl, utilitiesDecl] := by
      rw [← websiteGroups_eq]; exact h.subset hx
    have hy' : y ∈ [frontendDecl, componentsDecl, utilitiesDecl] := by
      rw [← websiteGroups_eq]; exact h.subset hy
    simp only [List.mem_cons, List.not_mem_nil, or_false] at hx' hy'
    rcases hx' with rfl | rfl | rfl <;> rcases hy' with rfl | rfl | rfl <;>
      first
        | rfl
        | exact addDecl_comm _ _ (by decide) z
  exact h.foldl_eq' comm ⟨∅, ∅, ∅⟩

/-- Witness for C5 at a reversed declaration order. -/
theorem taxonomy_perm_invariant_witness :
    buildTaxonomy [utilitiesDecl, componentsDecl, frontendDecl] = websiteTaxonomy :=
  taxonomy_perm_invariant [utilitiesDecl, componentsDecl, frontendDecl] (by decide)

/-- Claim C6: processing the declarations twice yields the same taxonomy
as processing them once - no duplicate nodes appear. -/
theorem taxonomy_idempotent :
    buildTaxonomy (websiteGroups ++ websiteGroups) = websiteTaxonomy := by decide

/-- Claim C7: the declared parent/child relation is exactly
(frontend, components) and (frontend, utilities), and the frontend
declaration carries no parent reference. -/
theorem parent_child_relation :
    declEdges websiteGroups = [("frontend", "components"), ("frontend", "utilities")]
    ∧ (websiteGroups.filter fun d => d.ident == "frontend").map GroupDecl.parent =
        [none] := by decide

/-- Claim C8: every declaration of the header has an identifier, a title
and a free-text description, frontend omits the parent reference, and
components and utilities each carry one. -/
theorem decl_shape :
    websiteGroups.map (fun d => (d.ident, d.parent)) =
      [("frontend", none), ("components", some "frontend"), ("utilities", some "frontend")]
    ∧ ∀ d ∈ websiteGroups, d.ident ≠ "" ∧ d.title ≠ "" ∧
        d.briefs ++ d.detailsTexts ≠ [] := by decide

/-- Witness for C8 at the components declaration. -/
theorem decl_shape_witness :
    componentsDecl.ident ≠ "" ∧ componentsDecl.title ≠ "" ∧
      componentsDecl.briefs ++ componentsDecl.detailsTexts ≠ [] :=
  decl_shape.2 componentsDecl (by decide)

/-- Counterexample to claim C9 as stated: the file does not have 16 lines
of text - its 17th line is the closing comment delimiter (the file has 16
newline characters because that final line lacks a trailing newline). -/
theorem line_count_not_sixteen : websiteDocsLines.length ≠ 16 := by decide

/-- Claim C9 (amended): the file consists of exactly 17 lines of text,
every one of them blank or part of a documentation comment block, so it
declares no functions, contracts, error conditions or side effects. -/
theorem file_is_doc_comments :
    websiteDocsLines.length = 17 ∧ pureDocComments websiteDocsLines = true := by decide

/-- Claim C10: exactly one declared group, frontend, carries a details
annotation; components and utilities carry none. -/
theorem only_frontend_has_details :
    websiteGroups.map (fun d => (d.ident, d.detailsTexts.length)) =
      [("frontend", 1), ("components", 0), ("utilities", 0)] := by decide
